import Mathlib

/-!
# LibrsyncWrapper.c: the JNI bridge between a Java caller and librsync

A shallow embedding of `src/c/LibrsyncWrapper.c`.

Conventions of the embedding:

* C pointers, JNI references (`jobject`, `jclass`, `jmethodID`) and `jlong`/`jint`
  values are integers (a `jint` is an `Int`); `0` is `NULL`.  A pointer and the `jlong` it is cast to are
  the same 64-bit word and are identified.
* `int`/`jint` arithmetic is two's complement on 32 bits (`wrapInt32`), `size_t` is
  an unsigned 64-bit word (`toSizeT`).
* Pointer arithmetic (`inBuf + inPosition`) is done on unbounded integers.
* The JNI function table, the codec (librsync) and the values of uninitialised
  locals are inputs of the model: their code is not part of this repository.
* Memory touched by the bridge is passed explicitly in `State`.
* A `jobject *` is the address of a by-value parameter of a native call: the slot holds
  the parameter while the call runs and an indeterminate word once it has returned
  (`State.endFrame`).
-/

namespace LibrsyncWrapper

/-! ## Machine integers -/

/-- The value of a C `int` (`jint`) holding the mathematical integer `x`:
two's complement on 32 bits. -/
def wrapInt32 (x : Int) : Int := (x + 2147483648) % 4294967296 - 2147483648

/-- The value of a `size_t` (64 bits, unsigned) that the integer `x` converts to. -/
def toSizeT (x : Int) : Nat := (x % 18446744073709551616).toNat

/-- Largest `jint`. -/
def INT_MAX : Int := 2147483647

/-! ## Types of the JNI and librsync headers -/

abbrev jlong := Int
abbrev jobject := Int
abbrev jclass := Int
abbrev jmethodID := Int
/-- A `JNIEnv *`: the execution context of one native call. -/
abbrev JNIEnv := Int
/-- A native pointer. -/
abbrev Ptr := Int

/-- The `rs_result` codes of `librsync.h` that the bridge names. Every other value
is one of the codec's failure (or running) codes. -/
abbrev rs_result := Int
def RS_DONE : rs_result := 0
def RS_BLOCKED : rs_result := 1
def RS_INTERNAL_ERROR : rs_result := 107

/-- `rs_buffers_t` of `librsync.h`. -/
structure rs_buffers_t where
  next_in : Ptr
  avail_in : Nat
  eof_in : Bool
  next_out : Ptr
  avail_out : Nat
deriving DecidableEq, Repr

/-- `wrapper_copy_arg_t`: the adapter binding a patch job's copy callback reads.
`patchBaseFileSeeker` is a `jobject *`: the address of a variable holding the
adapter reference. -/
structure wrapper_copy_arg_t where
  patchBaseFileSeeker : Ptr
  env : JNIEnv
deriving DecidableEq, Repr

/-- The entries of the JNI function table that the bridge calls for queries.
`CallObjectMethod` is the call of `seek(long, int)`; the calls of setters are
state changes, see `State`. -/
structure JNINativeInterface where
  GetObjectClass : JNIEnv → jobject → jclass
  GetMethodID : JNIEnv → jclass → String → String → jmethodID
  CallObjectMethod : JNIEnv → jobject → jmethodID → jlong → Int → jobject
  CallIntMethod : JNIEnv → jobject → jmethodID → Int
  GetDirectBufferAddress : JNIEnv → jobject → Ptr

/-- The memory the bridge reads and writes. -/
structure State where
  /-- Java heap: the position of each `java.nio.Buffer`. -/
  position : jobject → Int
  /-- Java heap: the `job` field of each result holder. -/
  job : jobject → jlong
  /-- Java heap: the `arg` field of each result holder. -/
  arg : jobject → jlong
  /-- Native heap: the `wrapper_copy_arg_t` stored at each address. -/
  copy_arg : Ptr → wrapper_copy_arg_t
  /-- Native memory: the `jobject` stored at each address (the target of a `jobject *`). -/
  slot : Ptr → jobject

/-- `Buffer.position(int)` invoked on `buf` through `CallObjectMethod`: the buffer's
position becomes `n`.  (The JDK rejects an `n` outside `[0, limit]` of the buffer; that
check belongs to the host runtime and is not modelled.) -/
def State.setPosition (st : State) (buf : jobject) (n : Int) : State :=
  { st with position := fun o => if o = buf then n else st.position o }

/-- The assignment `*p = v` for `p : wrapper_copy_arg_t *`. -/
def State.storeCopyArg (st : State) (p : Ptr) (v : wrapper_copy_arg_t) : State :=
  { st with copy_arg := fun q => if q = p then v else st.copy_arg q }

/-- A `jobject` parameter living at address `p` with value `v` in the frame of the running call. -/
def State.storeSlot (st : State) (p : Ptr) (v : jobject) : State :=
  { st with slot := fun q => if q = p then v else st.slot q }

/-- The return of the running call: the frame that held a `jobject` parameter at
address `p` is gone, and the address holds an indeterminate word `w` from then on. -/
def State.endFrame (st : State) (p : Ptr) (w : jobject) : State :=
  { st with slot := fun q => if q = p then w else st.slot q }

/-- The codec (librsync), an external collaborator.  `rs_patch_begin` is applied to
the binding registered with `wrapper_file_copy_cb`; `rs_job_iter` sees the memory
its copy callback would read, and returns its status with the updated buffers.  The
step itself leaves the memory in `State` as it is. -/
structure Codec where
  rs_patch_begin : Ptr → Ptr
  rs_job_iter : State → Ptr → rs_buffers_t → rs_result × rs_buffers_t

/-! ## `wrapper_file_copy_cb` -/

/-- What `wrapper_file_copy_cb` leaves behind: its return value and the contents of
its in/out parameters `*len` and `*buf`. -/
structure CopyOutcome where
  result : rs_result
  len : Nat
  buf : Ptr
deriving DecidableEq, Repr

/-- The view `seek` returns to `wrapper_file_copy_cb (arg, pos, len, buf)`, provided the
lookups before the call succeed. -/
def seekView (jni : JNINativeInterface) (st : State) (arg : Ptr) (pos : Int) (len : Nat) : jobject :=
  let copy_arg := st.copy_arg arg
  let env := copy_arg.env
  let seeker := st.slot copy_arg.patchBaseFileSeeker
  let cls := jni.GetObjectClass env seeker
  let seekMethod := jni.GetMethodID env cls "seek" "(JI)Ljava/nio/ByteBuffer;"
  jni.CallObjectMethod env seeker seekMethod pos (wrapInt32 len)

/-- The function `wrapper_file_copy_cb` (lines 127-176). `len` and `buf` are the contents of `*len` and
`*buf` on entry. -/
def wrapper_file_copy_cb (jni : JNINativeInterface) (st : State)
    (arg : Ptr) (pos : Int) (len : Nat) (buf : Ptr) : CopyOutcome :=
  let copy_arg := st.copy_arg arg
  let env := copy_arg.env
  let cls := jni.GetObjectClass env (st.slot copy_arg.patchBaseFileSeeker)
  if cls = 0 then ⟨RS_INTERNAL_ERROR, len, buf⟩ else
  let seekMethod := jni.GetMethodID env cls "seek" "(JI)Ljava/nio/ByteBuffer;"
  if seekMethod = 0 then ⟨RS_INTERNAL_ERROR, len, buf⟩ else
  let byteBuf := jni.CallObjectMethod env (st.slot copy_arg.patchBaseFileSeeker) seekMethod
    pos (wrapInt32 len)
  if byteBuf = 0 then ⟨RS_INTERNAL_ERROR, len, buf⟩ else
  let bufferClass := jni.GetObjectClass env byteBuf
  if bufferClass = 0 then ⟨RS_INTERNAL_ERROR, len, buf⟩ else
  let positionMethod := jni.GetMethodID env bufferClass "position" "()I"
  if positionMethod = 0 then ⟨RS_INTERNAL_ERROR, len, buf⟩ else
  let position := jni.CallIntMethod env byteBuf positionMethod
  let limitMethod := jni.GetMethodID env bufferClass "limit" "()I"
  if limitMethod = 0 then ⟨RS_INTERNAL_ERROR, len, buf⟩ else
  let limit := jni.CallIntMethod env byteBuf limitMethod
  if limit < 0 ∨ position < 0 then ⟨RS_INTERNAL_ERROR, len, buf⟩ else
  ⟨RS_DONE, len, jni.GetDirectBufferAddress env byteBuf + position⟩

/-- The value `position()` returns on the view of this fetch (line 159). -/
def viewPosition (jni : JNINativeInterface) (st : State) (arg : Ptr) (pos : Int) (len : Nat) : Int :=
  let env := (st.copy_arg arg).env
  let byteBuf := seekView jni st arg pos len
  jni.CallIntMethod env byteBuf (jni.GetMethodID env (jni.GetObjectClass env byteBuf) "position" "()I")

/-- The value `limit()` returns on the view of this fetch (line 166). -/
def viewLimit (jni : JNINativeInterface) (st : State) (arg : Ptr) (pos : Int) (len : Nat) : Int :=
  let env := (st.copy_arg arg).env
  let byteBuf := seekView jni st arg pos len
  jni.CallIntMethod env byteBuf (jni.GetMethodID env (jni.GetObjectClass env byteBuf) "limit" "()I")

/-- The direct buffer address of the view of this fetch (line 173); `0` when the view
has no addressable backing memory. -/
def viewAddress (jni : JNINativeInterface) (st : State) (arg : Ptr) (pos : Int) (len : Nat) : Ptr :=
  jni.GetDirectBufferAddress (st.copy_arg arg).env (seekView jni st arg pos len)

/-! ## `patchBegin` -/

/-- Modelled from the spec: the result holder's `setJob(long)`, whose Java source is
not in this repository; it publishes the job handle in the holder. -/
def State.setJob (st : State) (holder : jobject) (v : jlong) : State :=
  { st with job := fun o => if o = holder then v else st.job o }

/-- Modelled from the spec: the result holder's `setArg(long)`, whose Java source is
not in this repository; it publishes the adapter binding in the holder. -/
def State.setArg (st : State) (holder : jobject) (v : jlong) : State :=
  { st with arg := fun o => if o = holder then v else st.arg o }

/-- The function `Java_com_hds_aw_commons_librsync_LibrsyncWrapper_patchBegin` (lines 183-214).
`calloc` is the pointer the allocator returns (`0` on failure) and `baseFileSeeker_addr`
is `&baseFileSeeker`, the address of the parameter in this call's frame: the first line
places the parameter there, and every return ends the frame, after which that address
holds the indeterminate word `stale`. -/
def patchBegin (jni : JNINativeInterface) (codec : Codec) (calloc : Ptr)
    (baseFileSeeker_addr : Ptr) (stale : jobject) (st : State)
    (env : JNIEnv) (_cls : jclass) (baseFileSeeker : jobject) (result : jobject) : jlong × State :=
  let st := st.storeSlot baseFileSeeker_addr baseFileSeeker
  let copy_arg := calloc
  if copy_arg = 0 then (RS_INTERNAL_ERROR, st.endFrame baseFileSeeker_addr stale) else
  let st := st.storeCopyArg copy_arg ⟨baseFileSeeker_addr, env⟩
  let job := codec.rs_patch_begin copy_arg
  let resultClass := jni.GetObjectClass env result
  let jobMethod := jni.GetMethodID env resultClass "setJob" "(J)V"
  if jobMethod = 0 then (RS_INTERNAL_ERROR, st.endFrame baseFileSeeker_addr stale) else
  let argMethod := jni.GetMethodID env resultClass "setArg" "(J)V"
  if argMethod = 0 then (RS_INTERNAL_ERROR, st.endFrame baseFileSeeker_addr stale) else
  let st := st.setJob result job
  let st := st.setArg result copy_arg
  (RS_DONE, st.endFrame baseFileSeeker_addr stale)

/-! ## `iterateJob` -/

/-- The arguments of one call of `iterateJob`, in the order of the C signature. -/
structure IterateArgs where
  env : JNIEnv
  cls : jclass
  jobPointer : jlong
  inBuffer : jobject
  inPosition : Int
  inLimit : Int
  lastInput : Bool
  outBuffer : jobject
  outPosition : Int
  outLimit : Int
  patchBaseFileSeeker : jobject
  patchArg : jlong

/-- What the frame of one `iterateJob` call holds besides its arguments: the address
of the parameter `patchBaseFileSeeker`, the indeterminate values the locals
`wrapper_arg` and `buffersInfo` have before anything is assigned to them, and the
indeterminate word `stale` found at the parameter's address once the call has returned. -/
structure Frame where
  patchBaseFileSeeker_addr : Ptr
  wrapper_arg : Ptr
  buffersInfo : rs_buffers_t
  stale : jobject

/-- The declaration `size_t avail_in = inLimit - inPosition;` (lines 243-244, also
`avail_out`): an `int` subtraction converted to `size_t`. -/
def avail (limit position : Int) : Nat := toSizeT (wrapInt32 (limit - position))

/-- Lines 228-236: the binding in memory when the codec step runs.  The first line
places the parameter `patchBaseFileSeeker` at its address in the frame of the call;
`wrapper_arg` keeps its indeterminate value when `patchArg` is zero. -/
def rebind (fr : Frame) (st : State) (a : IterateArgs) : State :=
  let st := st.storeSlot fr.patchBaseFileSeeker_addr a.patchBaseFileSeeker
  let wrapper_arg := if a.patchArg ≠ 0 then a.patchArg else fr.wrapper_arg
  if a.patchBaseFileSeeker ≠ 0 ∧ wrapper_arg ≠ 0 then
    st.storeCopyArg wrapper_arg ⟨fr.patchBaseFileSeeker_addr, a.env⟩
  else st

/-- Lines 241-254: the `rs_buffers_t` handed to `rs_job_iter`. -/
def offered (jni : JNINativeInterface) (fr : Frame) (a : IterateArgs) : rs_buffers_t :=
  let inBuf := jni.GetDirectBufferAddress a.env a.inBuffer
  let avail_in := avail a.inLimit a.inPosition
  let avail_out := avail a.outLimit a.outPosition
  let inBegin := inBuf + a.inPosition
  { next_in := inBegin
    avail_in := avail_in
    eof_in := a.lastInput
    next_out := if a.outBuffer ≠ 0 then jni.GetDirectBufferAddress a.env a.outBuffer + a.outPosition
                else fr.buffersInfo.next_out
    avail_out := if a.outBuffer ≠ 0 then avail_out else fr.buffersInfo.avail_out }

/-- Line 256: the call `rs_job_iter(job, &buffersInfo)`. -/
def codecStep (jni : JNINativeInterface) (codec : Codec) (fr : Frame) (st : State)
    (a : IterateArgs) : rs_result × rs_buffers_t :=
  codec.rs_job_iter (rebind fr st a) a.jobPointer (offered jni fr a)

/-- The declaration `int readCnt = avail_in - buffersInfo.avail_in;` (lines 258 and 262, also
`writeCnt`): a `size_t` subtraction converted to `int`. -/
def count (availBefore availAfter : Nat) : Int :=
  wrapInt32 (toSizeT ((availBefore : Int) - (availAfter : Int)))

/-- The local `readCnt` of the call. -/
def readCnt (jni : JNINativeInterface) (codec : Codec) (fr : Frame) (st : State)
    (a : IterateArgs) : Int :=
  count (avail a.inLimit a.inPosition) (codecStep jni codec fr st a).2.avail_in

/-- The local `writeCnt` of the call. -/
def writeCnt (jni : JNINativeInterface) (codec : Codec) (fr : Frame) (st : State)
    (a : IterateArgs) : Int :=
  count (avail a.outLimit a.outPosition) (codecStep jni codec fr st a).2.avail_out

/-- The function `Java_com_hds_aw_commons_librsync_LibrsyncWrapper_iterateJob` (lines 222-268):
the returned status and the memory after the call.  The source does not check the
lookups of lines 238-239; the model covers the calls in which `position(I)` resolves,
so that both `CallObjectMethod` calls are calls of `Buffer.position(int)`.  The return
ends the frame of the call. -/
def iterateJob (jni : JNINativeInterface) (codec : Codec) (fr : Frame) (st : State)
    (a : IterateArgs) : jlong × State :=
  let st1 := rebind fr st a
  let result := (codecStep jni codec fr st a).1
  if result = RS_DONE ∨ result = RS_BLOCKED then
    let st2 := st1.setPosition a.inBuffer (wrapInt32 (a.inPosition + readCnt jni codec fr st a))
    let st3 := if a.outBuffer ≠ 0 then
        st2.setPosition a.outBuffer (wrapInt32 (a.outPosition + writeCnt jni codec fr st a))
      else st2
    (result, st3.endFrame fr.patchBaseFileSeeker_addr fr.stale)
  else (result, st1.endFrame fr.patchBaseFileSeeker_addr fr.stale)

/-! ## Concrete inputs -/

/-- A JNI world in which every lookup succeeds and `seek` returns the buffer `view`,
whose `position()`, `limit()` and direct address are the given ones (other buffers
are direct, at address 4096). -/
def demoJNI (view : jobject) (position limit : Int) (address : Ptr) : JNINativeInterface where
  GetObjectClass := fun _ o => if o = 0 then 0 else 1
  GetMethodID := fun _ c name _ =>
    if c = 0 then 0 else if name = "position" then 2 else if name = "limit" then 3 else 1
  CallObjectMethod := fun _ _ _ _ _ => view
  CallIntMethod := fun _ _ m => if m = 2 then position else if m = 3 then limit else 0
  GetDirectBufferAddress := fun _ o => if o = view then address else 4096

/-- A memory in which every binding is `(&seeker = 64, env = 1)`, the adapter stored
there is object `5`, buffer `11` is at position `2`, and all other positions and the
holder fields are `0`. -/
def demoState : State where
  position := fun o => if o = 11 then 2 else 0
  job := fun _ => 0
  arg := fun _ => 0
  copy_arg := fun _ => ⟨64, 1⟩
  slot := fun _ => 5

/-- A codec whose step consumes `used` bytes of input, writes `wrote` bytes of output
(as far as available) and returns `status`. -/
def demoCodec (status : rs_result) (used wrote : Nat) : Codec where
  rs_patch_begin := fun p => p + 1000
  rs_job_iter := fun _ _ b =>
    (status, { b with avail_in := b.avail_in - used, avail_out := b.avail_out - wrote })

/-- A frame whose parameter `patchBaseFileSeeker` lives at address 72, whose
uninitialised locals are zero, and whose dead slot holds the word 77. -/
def demoFrame : Frame := ⟨72, 0, ⟨0, 0, false, 0, 0⟩, 77⟩

/-- A call on input buffer 11 with window `[2, 10)`, output buffer 12 with window `[0, 16)`,
env 2, no fresh adapter, patch binding at 200. -/
def demoArgs : IterateArgs := ⟨2, 0, 300, 11, 2, 10, false, 12, 0, 16, 0, 200⟩

/-- The call `demoArgs` with the input cursor at position 5 beyond its limit 3. -/
def demoArgsInverted : IterateArgs := { demoArgs with inPosition := 5, inLimit := 3 }

/-- The call `demoArgs` with a fresh adapter, object 9. -/
def demoArgsFresh : IterateArgs := { demoArgs with patchBaseFileSeeker := 9 }

/-! ## Arithmetic of the conversions -/

theorem wrapInt32_of_range (x : Int) (h0 : -2147483648 ≤ x) (h1 : x ≤ 2147483647) :
    wrapInt32 x = x := by
  unfold wrapInt32; omega

theorem toSizeT_of_range (x : Int) (h0 : 0 ≤ x) (h1 : x < 18446744073709551616) :
    (toSizeT x : Int) = x := by
  unfold toSizeT; omega

theorem avail_of_window (limit position : Int) (h0 : position ≤ limit)
    (h1 : limit - position ≤ INT_MAX) : (avail limit position : Int) = limit - position := by
  unfold INT_MAX at h1
  unfold avail
  rw [wrapInt32_of_range _ (by omega) (by omega)]
  exact toSizeT_of_range _ (by omega) (by omega)

theorem count_of_le (before after : Nat) (h : after ≤ before) (hb : (before : Int) ≤ INT_MAX) :
    count before after = (before : Int) - (after : Int) := by
  unfold INT_MAX at hb
  unfold count
  rw [toSizeT_of_range _ (by omega) (by omega)]
  exact wrapInt32_of_range _ (by omega) (by omega)

theorem position_in_window (position limit cnt : Int) (h0 : 0 ≤ position)
    (h2 : limit ≤ INT_MAX) (hc0 : 0 ≤ cnt) (hc1 : cnt ≤ limit - position) :
    wrapInt32 (position + cnt) = position + cnt
    ∧ position ≤ position + cnt ∧ position + cnt ≤ limit := by
  unfold INT_MAX at h2
  refine ⟨wrapInt32_of_range _ (by omega) (by omega), by omega, by omega⟩

theorem count_bounds (before after : Nat) (window cnt : Int) (hb : (before : Int) = window)
    (hle : after ≤ before) (hc : cnt = (before : Int) - (after : Int)) :
    0 ≤ cnt ∧ cnt ≤ window := by
  omega

/-! ## `iterateJob`: status and write-back -/

theorem iterateJob_of_ok (jni : JNINativeInterface) (codec : Codec) (fr : Frame) (st : State)
    (a : IterateArgs)
    (h : (codecStep jni codec fr st a).1 = RS_DONE ∨ (codecStep jni codec fr st a).1 = RS_BLOCKED) :
    (iterateJob jni codec fr st a).2.position =
      (if a.outBuffer ≠ 0 then
        ((rebind fr st a).setPosition a.inBuffer
            (wrapInt32 (a.inPosition + readCnt jni codec fr st a))).setPosition a.outBuffer
          (wrapInt32 (a.outPosition + writeCnt jni codec fr st a))
      else (rebind fr st a).setPosition a.inBuffer
            (wrapInt32 (a.inPosition + readCnt jni codec fr st a))).position := by
  unfold iterateJob
  simp only [if_pos h]
  rfl

theorem iterateJob_of_failure (jni : JNINativeInterface) (codec : Codec) (fr : Frame) (st : State)
    (a : IterateArgs)
    (h : ¬ ((codecStep jni codec fr st a).1 = RS_DONE ∨ (codecStep jni codec fr st a).1 = RS_BLOCKED)) :
    (iterateJob jni codec fr st a).2.position = (rebind fr st a).position := by
  unfold iterateJob
  simp only [if_neg h]
  rfl

theorem iterateJob_slot_after (jni : JNINativeInterface) (codec : Codec) (fr : Frame) (st : State)
    (a : IterateArgs) :
    (iterateJob jni codec fr st a).2.slot fr.patchBaseFileSeeker_addr = fr.stale := by
  unfold iterateJob
  dsimp only
  split_ifs <;> simp [State.endFrame]

theorem rebind_position (fr : Frame) (st : State) (a : IterateArgs) :
    (rebind fr st a).position = st.position := by
  unfold rebind State.storeCopyArg State.storeSlot
  dsimp only
  split_ifs <;> rfl

theorem readCnt_eq (jni : JNINativeInterface) (codec : Codec) (fr : Frame) (st : State)
    (a : IterateArgs)
    (hin : 0 ≤ a.inPosition ∧ a.inPosition ≤ a.inLimit ∧ a.inLimit ≤ INT_MAX)
    (hdec : (codecStep jni codec fr st a).2.avail_in ≤ (offered jni fr a).avail_in) :
    readCnt jni codec fr st a
      = ((offered jni fr a).avail_in : Int) - ((codecStep jni codec fr st a).2.avail_in : Int)
    ∧ ((offered jni fr a).avail_in : Int) = a.inLimit - a.inPosition := by
  obtain ⟨h0, h1, h2⟩ := hin
  have hmax : INT_MAX = 2147483647 := rfl
  have hav := avail_of_window a.inLimit a.inPosition h1 (by omega)
  have hoff : (offered jni fr a).avail_in = avail a.inLimit a.inPosition := rfl
  rw [hoff] at hdec ⊢
  refine ⟨?_, hav⟩
  unfold readCnt
  exact count_of_le _ _ hdec (by omega)

theorem writeCnt_eq (jni : JNINativeInterface) (codec : Codec) (fr : Frame) (st : State)
    (a : IterateArgs) (hout : a.outBuffer ≠ 0)
    (hw : 0 ≤ a.outPosition ∧ a.outPosition ≤ a.outLimit ∧ a.outLimit ≤ INT_MAX)
    (hdec : (codecStep jni codec fr st a).2.avail_out ≤ (offered jni fr a).avail_out) :
    writeCnt jni codec fr st a
      = ((offered jni fr a).avail_out : Int) - ((codecStep jni codec fr st a).2.avail_out : Int)
    ∧ ((offered jni fr a).avail_out : Int) = a.outLimit - a.outPosition := by
  obtain ⟨h0, h1, h2⟩ := hw
  have hmax : INT_MAX = 2147483647 := rfl
  have hav := avail_of_window a.outLimit a.outPosition h1 (by omega)
  have hoff : (offered jni fr a).avail_out = avail a.outLimit a.outPosition := by
    unfold offered; simp only [if_pos hout]
  rw [hoff] at hdec ⊢
  refine ⟨?_, hav⟩
  unfold writeCnt
  exact count_of_le _ _ hdec (by omega)

/-- C7: the status `iterateJob` returns is the status `rs_job_iter` returned for the
buffers of this call, whatever that status is and whether or not positions are
written back. -/
theorem iterateJob_returns_codec_status (jni : JNINativeInterface) (codec : Codec) (fr : Frame)
    (st : State) (a : IterateArgs) :
    (iterateJob jni codec fr st a).1
      = (codec.rs_job_iter (rebind fr st a) a.jobPointer (offered jni fr a)).1 := by
  unfold iterateJob
  dsimp only
  split_ifs <;> rfl

/-- C10: when the codec step returns a status other than `RS_DONE` and `RS_BLOCKED`,
the call leaves the position of every buffer, the input and the output buffer
included, as it was, whatever the codec consumed or wrote. -/
theorem iterateJob_failure_keeps_positions (jni : JNINativeInterface) (codec : Codec) (fr : Frame)
    (st : State) (a : IterateArgs)
    (h : (codecStep jni codec fr st a).1 ≠ RS_DONE ∧ (codecStep jni codec fr st a).1 ≠ RS_BLOCKED) :
    (iterateJob jni codec fr st a).2.position a.inBuffer = st.position a.inBuffer
    ∧ (iterateJob jni codec fr st a).2.position a.outBuffer = st.position a.outBuffer
    ∧ ∀ o, (iterateJob jni codec fr st a).2.position o = st.position o := by
  have hst := iterateJob_of_failure jni codec fr st a (by tauto)
  rw [hst, rebind_position]
  exact ⟨rfl, rfl, fun _ => rfl⟩

/-- Witness of C10: a step that fails with code 106 after consuming 3 bytes and writing 4. -/
theorem iterateJob_failure_keeps_positions_witness :
    (codecStep (demoJNI 7 0 0 0) (demoCodec 106 3 4) demoFrame demoState demoArgs).2.avail_in
        < (offered (demoJNI 7 0 0 0) demoFrame demoArgs).avail_in
    ∧ (iterateJob (demoJNI 7 0 0 0) (demoCodec 106 3 4) demoFrame demoState demoArgs).2.position 11 = 2
    ∧ (iterateJob (demoJNI 7 0 0 0) (demoCodec 106 3 4) demoFrame demoState demoArgs).2.position 12 = 0 :=
  ⟨by decide,
   (iterateJob_failure_keeps_positions (demoJNI 7 0 0 0) (demoCodec 106 3 4) demoFrame demoState
      demoArgs ⟨by decide, by decide⟩).1,
   (iterateJob_failure_keeps_positions (demoJNI 7 0 0 0) (demoCodec 106 3 4) demoFrame demoState
      demoArgs ⟨by decide, by decide⟩).2.1⟩

/-- Counterexample to C1: the codec step fails with code 106 after consuming 3 of the 8
bytes offered; the input buffer stays at position 2 instead of moving to `2 + 3`. -/
theorem iterateJob_position_after_failure :
    ¬ ((iterateJob (demoJNI 7 0 0 0) (demoCodec 106 3 4) demoFrame demoState demoArgs).2.position
          demoArgs.inBuffer
        = demoArgs.inPosition
          + (((offered (demoJNI 7 0 0 0) demoFrame demoArgs).avail_in : Int)
            - ((codecStep (demoJNI 7 0 0 0) (demoCodec 106 3 4) demoFrame demoState
                demoArgs).2.avail_in : Int))) := by
  decide

/-- C1 (amended): when the codec step returns `RS_DONE` or `RS_BLOCKED`, the cursors are
well formed and the step did not increase `avail_in` (`avail_out`), the input buffer's
position after the call is `inPosition` plus the bytes consumed (provided the output
buffer is absent or another object), and the position of a supplied output buffer is
`outPosition` plus the bytes written. -/
theorem iterateJob_advances_positions (jni : JNINativeInterface) (codec : Codec) (fr : Frame)
    (st : State) (a : IterateArgs)
    (hstatus : (codecStep jni codec fr st a).1 = RS_DONE
      ∨ (codecStep jni codec fr st a).1 = RS_BLOCKED) :
    (0 ≤ a.inPosition ∧ a.inPosition ≤ a.inLimit ∧ a.inLimit ≤ INT_MAX →
      (codecStep jni codec fr st a).2.avail_in ≤ (offered jni fr a).avail_in →
      a.outBuffer = 0 ∨ a.inBuffer ≠ a.outBuffer →
      (iterateJob jni codec fr st a).2.position a.inBuffer
        = a.inPosition + (((offered jni fr a).avail_in : Int)
            - ((codecStep jni codec fr st a).2.avail_in : Int)))
    ∧ (a.outBuffer ≠ 0 →
      0 ≤ a.outPosition ∧ a.outPosition ≤ a.outLimit ∧ a.outLimit ≤ INT_MAX →
      (codecStep jni codec fr st a).2.avail_out ≤ (offered jni fr a).avail_out →
      (iterateJob jni codec fr st a).2.position a.outBuffer
        = a.outPosition + (((offered jni fr a).avail_out : Int)
            - ((codecStep jni codec fr st a).2.avail_out : Int))) := by
  have hst := iterateJob_of_ok jni codec fr st a hstatus
  have hmax : INT_MAX = 2147483647 := rfl
  constructor
  · intro hin hdec halias
    obtain ⟨hr, hav⟩ := readCnt_eq jni codec fr st a hin hdec
    obtain ⟨h0, h1, h2⟩ := hin
    have hw : wrapInt32 (a.inPosition + readCnt jni codec fr st a)
        = a.inPosition + readCnt jni codec fr st a :=
      wrapInt32_of_range _ (by omega) (by omega)
    rw [hst, ← hr]
    by_cases hout : a.outBuffer = 0
    · simp only [hout, ne_eq, not_true_eq_false, if_false, State.setPosition, if_true, hw]
    · have hne : a.inBuffer ≠ a.outBuffer := halias.resolve_left hout
      simp only [ne_eq, hout, not_false_eq_true, if_true, State.setPosition, hne, if_false, hw]
  · intro hout hwf hdec
    obtain ⟨hr, hav⟩ := writeCnt_eq jni codec fr st a hout hwf hdec
    obtain ⟨h0, h1, h2⟩ := hwf
    have hw : wrapInt32 (a.outPosition + writeCnt jni codec fr st a)
        = a.outPosition + writeCnt jni codec fr st a :=
      wrapInt32_of_range _ (by omega) (by omega)
    rw [hst, ← hr]
    simp only [ne_eq, hout, not_false_eq_true, if_true, State.setPosition, hw]

/-- Witness of C1 (amended): a step that returns `RS_BLOCKED` after consuming 3 bytes and
writing 4 moves the input buffer from 2 to 5 and the output buffer from 0 to 4. -/
theorem iterateJob_advances_positions_witness :
    (iterateJob (demoJNI 7 0 0 0) (demoCodec 1 3 4) demoFrame demoState demoArgs).2.position 11
        = 2 + (((offered (demoJNI 7 0 0 0) demoFrame demoArgs).avail_in : Int)
            - ((codecStep (demoJNI 7 0 0 0) (demoCodec 1 3 4) demoFrame demoState
                demoArgs).2.avail_in : Int))
    ∧ (iterateJob (demoJNI 7 0 0 0) (demoCodec 1 3 4) demoFrame demoState demoArgs).2.position 12
        = 0 + (((offered (demoJNI 7 0 0 0) demoFrame demoArgs).avail_out : Int)
            - ((codecStep (demoJNI 7 0 0 0) (demoCodec 1 3 4) demoFrame demoState
                demoArgs).2.avail_out : Int)) :=
  ⟨(iterateJob_advances_positions (demoJNI 7 0 0 0) (demoCodec 1 3 4) demoFrame demoState demoArgs
      (by decide)).1 (by decide) (by decide) (by decide),
   (iterateJob_advances_positions (demoJNI 7 0 0 0) (demoCodec 1 3 4) demoFrame demoState demoArgs
      (by decide)).2 (by decide) (by decide) (by decide)⟩

/-- C2: with well-formed cursors and a codec step that does not increase `avail_in` or
`avail_out`, the counts the bridge computes satisfy `0 ≤ readCnt ≤ inLimit - inPosition`
and (an output buffer being supplied) `0 ≤ writeCnt ≤ outLimit - outPosition`, and every
position the call writes back lies between the cursor's position and its limit. -/
theorem iterateJob_counts_within_window (jni : JNINativeInterface) (codec : Codec) (fr : Frame)
    (st : State) (a : IterateArgs)
    (hin : 0 ≤ a.inPosition ∧ a.inPosition ≤ a.inLimit ∧ a.inLimit ≤ INT_MAX)
    (hout : 0 ≤ a.outPosition ∧ a.outPosition ≤ a.outLimit ∧ a.outLimit ≤ INT_MAX)
    (hdec : (codecStep jni codec fr st a).2.avail_in ≤ (offered jni fr a).avail_in
      ∧ (codecStep jni codec fr st a).2.avail_out ≤ (offered jni fr a).avail_out) :
    (0 ≤ readCnt jni codec fr st a ∧ readCnt jni codec fr st a ≤ a.inLimit - a.inPosition)
    ∧ (a.outBuffer ≠ 0 →
        0 ≤ writeCnt jni codec fr st a ∧ writeCnt jni codec fr st a ≤ a.outLimit - a.outPosition)
    ∧ ∀ o, (iterateJob jni codec fr st a).2.position o = st.position o
        ∨ (o = a.inBuffer ∧ a.inPosition ≤ (iterateJob jni codec fr st a).2.position o
            ∧ (iterateJob jni codec fr st a).2.position o ≤ a.inLimit)
        ∨ (o = a.outBuffer ∧ a.outPosition ≤ (iterateJob jni codec fr st a).2.position o
            ∧ (iterateJob jni codec fr st a).2.position o ≤ a.outLimit) := by
  have hrb : 0 ≤ readCnt jni codec fr st a
      ∧ readCnt jni codec fr st a ≤ a.inLimit - a.inPosition := by
    obtain ⟨hr, hav⟩ := readCnt_eq jni codec fr st a hin hdec.1
    exact count_bounds _ _ _ _ hav hdec.1 hr
  have hwb : a.outBuffer ≠ 0 → 0 ≤ writeCnt jni codec fr st a
      ∧ writeCnt jni codec fr st a ≤ a.outLimit - a.outPosition := by
    intro h
    obtain ⟨hw, hwav⟩ := writeCnt_eq jni codec fr st a h hout hdec.2
    exact count_bounds _ _ _ _ hwav hdec.2 hw
  refine ⟨hrb, hwb, fun o => ?_⟩
  by_cases hstatus : (codecStep jni codec fr st a).1 = RS_DONE
      ∨ (codecStep jni codec fr st a).1 = RS_BLOCKED
  · obtain ⟨hri, hri0, hri1⟩ := position_in_window a.inPosition a.inLimit
      (readCnt jni codec fr st a) hin.1 hin.2.2 hrb.1 hrb.2
    rw [iterateJob_of_ok jni codec fr st a hstatus, hri]
    by_cases ho : a.outBuffer = 0
    · simp only [ho, ne_eq, not_true_eq_false, if_false, State.setPosition, rebind_position]
      by_cases hoi : o = a.inBuffer
      · right; left
        simp only [hoi, if_true, true_and]
        exact ⟨hri0, hri1⟩
      · left; simp only [hoi, if_false]
    · obtain ⟨hw0, hw1⟩ := hwb ho
      obtain ⟨hwi, hwi0, hwi1⟩ := position_in_window a.outPosition a.outLimit
        (writeCnt jni codec fr st a) hout.1 hout.2.2 hw0 hw1
      simp only [ne_eq, ho, not_false_eq_true, if_true, State.setPosition, rebind_position, hwi]
      by_cases hoo : o = a.outBuffer
      · right; right
        simp only [hoo, if_true, true_and]
        exact ⟨hwi0, hwi1⟩
      · by_cases hoi : o = a.inBuffer
        · right; left
          subst hoi
          simp only [hoo, if_false, if_true, true_and]
          exact ⟨hri0, hri1⟩
        · left; simp only [hoo, hoi, if_false]
  · left
    rw [iterateJob_of_failure jni codec fr st a hstatus, rebind_position]

/-- Witness of C2: input window `[2, 10)`, output window `[0, 16)`, a step consuming 3
bytes and writing 4. -/
theorem iterateJob_counts_within_window_witness :
    (0 ≤ readCnt (demoJNI 7 0 0 0) (demoCodec 0 3 4) demoFrame demoState demoArgs
      ∧ readCnt (demoJNI 7 0 0 0) (demoCodec 0 3 4) demoFrame demoState demoArgs ≤ 10 - 2)
    ∧ readCnt (demoJNI 7 0 0 0) (demoCodec 0 3 4) demoFrame demoState demoArgs = 3
    ∧ writeCnt (demoJNI 7 0 0 0) (demoCodec 0 3 4) demoFrame demoState demoArgs = 4 :=
  ⟨(iterateJob_counts_within_window (demoJNI 7 0 0 0) (demoCodec 0 3 4) demoFrame demoState demoArgs
      (by decide) (by decide) (by decide)).1, by decide, by decide⟩

/-! ## `iterateJob`: the buffers handed to the codec -/

/-- Counterexample to C3: with `inPosition = 5` and `inLimit = 3` the codec is offered
`2^64 - 2` bytes, not `inLimit - inPosition`, and the offered region runs past `inLimit`. -/
theorem offered_inverted_cursor :
    ¬ (((offered (demoJNI 7 0 0 0) demoFrame demoArgsInverted).avail_in : Int)
          = demoArgsInverted.inLimit - demoArgsInverted.inPosition
        ∧ (offered (demoJNI 7 0 0 0) demoFrame demoArgsInverted).next_in
            + ((offered (demoJNI 7 0 0 0) demoFrame demoArgsInverted).avail_in : Int)
          ≤ (demoJNI 7 0 0 0).GetDirectBufferAddress demoArgsInverted.env demoArgsInverted.inBuffer
            + demoArgsInverted.inLimit) := by
  decide

/-- C3 (amended): the buffers `rs_job_iter` receives are `offered`; when
`inPosition ≤ inLimit` and the difference fits an `int`, `next_in` is the input
buffer's base plus `inPosition`, `avail_in` is `inLimit - inPosition`, and the region
ends at base plus `inLimit`; likewise for a supplied output buffer. -/
theorem offered_is_cursor_window (jni : JNINativeInterface) (codec : Codec) (fr : Frame)
    (st : State) (a : IterateArgs)
    (hin : a.inPosition ≤ a.inLimit ∧ a.inLimit - a.inPosition ≤ INT_MAX) :
    codecStep jni codec fr st a = codec.rs_job_iter (rebind fr st a) a.jobPointer (offered jni fr a)
    ∧ (offered jni fr a).next_in = jni.GetDirectBufferAddress a.env a.inBuffer + a.inPosition
    ∧ ((offered jni fr a).avail_in : Int) = a.inLimit - a.inPosition
    ∧ (offered jni fr a).next_in + ((offered jni fr a).avail_in : Int)
        = jni.GetDirectBufferAddress a.env a.inBuffer + a.inLimit
    ∧ (a.outBuffer ≠ 0 → a.outPosition ≤ a.outLimit ∧ a.outLimit - a.outPosition ≤ INT_MAX →
        (offered jni fr a).next_out = jni.GetDirectBufferAddress a.env a.outBuffer + a.outPosition
        ∧ ((offered jni fr a).avail_out : Int) = a.outLimit - a.outPosition
        ∧ (offered jni fr a).next_out + ((offered jni fr a).avail_out : Int)
            = jni.GetDirectBufferAddress a.env a.outBuffer + a.outLimit) := by
  have hnext : (offered jni fr a).next_in
      = jni.GetDirectBufferAddress a.env a.inBuffer + a.inPosition := rfl
  have hav : ((offered jni fr a).avail_in : Int) = a.inLimit - a.inPosition :=
    avail_of_window a.inLimit a.inPosition hin.1 hin.2
  refine ⟨rfl, hnext, hav, ?_, ?_⟩
  · rw [hnext, hav]; ring
  · intro hout hw
    have hnext_out : (offered jni fr a).next_out
        = jni.GetDirectBufferAddress a.env a.outBuffer + a.outPosition := by
      unfold offered; simp only [if_pos hout]
    have hav_out : ((offered jni fr a).avail_out : Int) = a.outLimit - a.outPosition := by
      have h := avail_of_window a.outLimit a.outPosition hw.1 hw.2
      unfold offered; simp only [if_pos hout]; exact h
    refine ⟨hnext_out, hav_out, ?_⟩
    rw [hnext_out, hav_out]; ring

/-- Witness of C3 (amended): the windows `[2, 10)` of a buffer at 4096 and `[0, 16)`. -/
theorem offered_is_cursor_window_witness :
    (offered (demoJNI 7 0 0 0) demoFrame demoArgs).next_in
        = (demoJNI 7 0 0 0).GetDirectBufferAddress demoArgs.env demoArgs.inBuffer + demoArgs.inPosition
    ∧ ((offered (demoJNI 7 0 0 0) demoFrame demoArgs).avail_in : Int)
        = demoArgs.inLimit - demoArgs.inPosition
    ∧ (offered (demoJNI 7 0 0 0) demoFrame demoArgs).avail_in = 8 :=
  ⟨(offered_is_cursor_window (demoJNI 7 0 0 0) (demoCodec 0 3 4) demoFrame demoState demoArgs
      ⟨by decide, by decide⟩).2.1,
   (offered_is_cursor_window (demoJNI 7 0 0 0) (demoCodec 0 3 4) demoFrame demoState demoArgs
      ⟨by decide, by decide⟩).2.2.1,
   by decide⟩

/-! ## `iterateJob`: the adapter binding -/

/-- Counterexample to C8: a patch-job call in env 2 that supplies no fresh adapter leaves
the binding with the env captured earlier (env 1). -/
theorem rebind_keeps_captured_env :
    ¬ (demoArgs.patchArg ≠ 0 →
        ((rebind demoFrame demoState demoArgs).copy_arg demoArgs.patchArg).env = demoArgs.env) := by
  decide

/-- C8 (amended): on a patch job (non-zero `patchArg`) the codec step runs on the memory
`rebind` leaves.  With a fresh adapter, the binding holds the current env and the
address of the parameter carrying the fresh adapter, so that every fetch of the step
calls `seek` on the fresh adapter in the current env; with none, the env of the binding
is the env captured before. -/
theorem rebind_binding (jni : JNINativeInterface) (codec : Codec) (fr : Frame) (st : State)
    (a : IterateArgs) (hpatch : a.patchArg ≠ 0) :
    codecStep jni codec fr st a = codec.rs_job_iter (rebind fr st a) a.jobPointer (offered jni fr a)
    ∧ (a.patchBaseFileSeeker ≠ 0 →
        (rebind fr st a).copy_arg a.patchArg = ⟨fr.patchBaseFileSeeker_addr, a.env⟩
        ∧ (rebind fr st a).slot ((rebind fr st a).copy_arg a.patchArg).patchBaseFileSeeker
            = a.patchBaseFileSeeker
        ∧ ∀ pos len, seekView jni (rebind fr st a) a.patchArg pos len
            = jni.CallObjectMethod a.env a.patchBaseFileSeeker
                (jni.GetMethodID a.env (jni.GetObjectClass a.env a.patchBaseFileSeeker)
                  "seek" "(JI)Ljava/nio/ByteBuffer;")
                pos (wrapInt32 len))
    ∧ (a.patchBaseFileSeeker = 0 →
        ((rebind fr st a).copy_arg a.patchArg).env = (st.copy_arg a.patchArg).env) := by
  refine ⟨rfl, ?_, ?_⟩
  · intro hs
    have hb : (rebind fr st a).copy_arg a.patchArg = ⟨fr.patchBaseFileSeeker_addr, a.env⟩ := by
      simp [rebind, hpatch, hs, State.storeCopyArg, State.storeSlot]
    have hslot : (rebind fr st a).slot fr.patchBaseFileSeeker_addr = a.patchBaseFileSeeker := by
      simp [rebind, hpatch, hs, State.storeCopyArg, State.storeSlot]
    refine ⟨hb, ?_, ?_⟩
    · rw [hb]; exact hslot
    · intro pos len
      unfold seekView
      simp only [hb, hslot]
  · intro hs
    simp [rebind, hs, State.storeCopyArg, State.storeSlot]

/-- Witness of C8 (amended): a patch-job call in env 2 with the fresh adapter 9, and the
same call without a fresh adapter, whose binding keeps env 1. -/
theorem rebind_binding_witness :
    (rebind demoFrame demoState demoArgsFresh).copy_arg 200 = ⟨72, 2⟩
    ∧ (rebind demoFrame demoState demoArgsFresh).slot 72 = 9
    ∧ ((rebind demoFrame demoState demoArgs).copy_arg 200).env = 1 :=
  ⟨((rebind_binding (demoJNI 7 0 0 0) (demoCodec 0 3 4) demoFrame demoState demoArgsFresh
      (by decide)).2.1 (by decide)).1,
   by decide,
   (rebind_binding (demoJNI 7 0 0 0) (demoCodec 0 3 4) demoFrame demoState demoArgs
      (by decide)).2.2 (by decide)⟩

/-! ## `wrapper_file_copy_cb` -/

theorem wrapper_file_copy_cb_len (jni : JNINativeInterface) (st : State) (arg : Ptr) (pos : Int)
    (len : Nat) (buf : Ptr) : (wrapper_file_copy_cb jni st arg pos len buf).len = len := by
  unfold wrapper_file_copy_cb
  dsimp only
  split_ifs <;> rfl

theorem wrapper_file_copy_cb_failure (jni : JNINativeInterface) (st : State) (arg : Ptr)
    (pos : Int) (len : Nat) (buf : Ptr)
    (h : (wrapper_file_copy_cb jni st arg pos len buf).result ≠ RS_DONE) :
    (wrapper_file_copy_cb jni st arg pos len buf).result = RS_INTERNAL_ERROR
    ∧ (wrapper_file_copy_cb jni st arg pos len buf).buf = buf := by
  unfold wrapper_file_copy_cb at h ⊢
  dsimp only at h ⊢
  split_ifs at h ⊢ <;> first | exact ⟨rfl, rfl⟩ | exact absurd rfl h

/-- The guard of line 168: when `position()` or `limit()` of the view is negative, the
callback returns `RS_INTERNAL_ERROR` and leaves `*buf` and `*len` unwritten. -/
theorem wrapper_file_copy_cb_negative_bounds (jni : JNINativeInterface) (st : State) (arg : Ptr)
    (pos : Int) (len : Nat) (buf : Ptr)
    (h : viewPosition jni st arg pos len < 0 ∨ viewLimit jni st arg pos len < 0) :
    (wrapper_file_copy_cb jni st arg pos len buf).result = RS_INTERNAL_ERROR
    ∧ (wrapper_file_copy_cb jni st arg pos len buf).buf = buf
    ∧ (wrapper_file_copy_cb jni st arg pos len buf).len = len := by
  refine ⟨?_, ?_, wrapper_file_copy_cb_len jni st arg pos len buf⟩
  all_goals
    unfold viewPosition viewLimit seekView at h
    unfold wrapper_file_copy_cb
    dsimp only at h ⊢
    split_ifs with h1 h2 h3 h4 h5 h6 h7
    all_goals first | rfl | (exfalso; tauto)

/-- C5, the code at the failing input: `seek` returns a non-null view with position 0 and
limit 10 whose direct buffer address is null; the callback returns `RS_DONE` and
stores the null address in `*buf`. -/
theorem wrapper_file_copy_cb_null_address :
    seekView (demoJNI 7 0 10 0) demoState 200 0 10 ≠ 0
    ∧ viewAddress (demoJNI 7 0 10 0) demoState 200 0 10 = 0
    ∧ (wrapper_file_copy_cb (demoJNI 7 0 10 0) demoState 200 0 10 4242).result = RS_DONE
    ∧ (wrapper_file_copy_cb (demoJNI 7 0 10 0) demoState 200 0 10 4242).buf = 0 := by
  decide

/-- C6, the code at the failing input: 10 bytes are requested and the view holds 3 valid
bytes (position 0, limit 3); the callback returns `RS_DONE` with `*len` still 10. -/
theorem wrapper_file_copy_cb_short_view :
    viewLimit (demoJNI 7 0 3 4000) demoState 200 0 10
        - viewPosition (demoJNI 7 0 3 4000) demoState 200 0 10 = 3
    ∧ (wrapper_file_copy_cb (demoJNI 7 0 3 4000) demoState 200 0 10 0).result = RS_DONE
    ∧ (wrapper_file_copy_cb (demoJNI 7 0 3 4000) demoState 200 0 10 0).len = 10 := by
  decide

/-! ## `patchBegin` -/

/-- All or nothing: `patchBegin` returns `RS_INTERNAL_ERROR` exactly when the allocation
failed or `setJob`/`setArg` could not be resolved, and then no holder field is changed;
otherwise it returns `RS_DONE`, the holder's job is the job `rs_patch_begin` created,
its arg is the new binding, and the binding holds `&baseFileSeeker` and the env. -/
theorem patchBegin_all_or_nothing (jni : JNINativeInterface) (codec : Codec)
    (calloc : Ptr) (baseFileSeeker_addr : Ptr) (stale : jobject) (st : State) (env : JNIEnv)
    (cls : jclass) (baseFileSeeker : jobject) (result : jobject) :
    ((patchBegin jni codec calloc baseFileSeeker_addr stale st env cls baseFileSeeker result).1
          ≠ RS_DONE ↔
        (calloc = 0
          ∨ jni.GetMethodID env (jni.GetObjectClass env result) "setJob" "(J)V" = 0
          ∨ jni.GetMethodID env (jni.GetObjectClass env result) "setArg" "(J)V" = 0))
    ∧ ((patchBegin jni codec calloc baseFileSeeker_addr stale st env cls baseFileSeeker result).1
          ≠ RS_DONE →
        (patchBegin jni codec calloc baseFileSeeker_addr stale st env cls baseFileSeeker result).1
            = RS_INTERNAL_ERROR
        ∧ ∀ o,
          (patchBegin jni codec calloc baseFileSeeker_addr stale st env cls baseFileSeeker
              result).2.job o = st.job o
          ∧ (patchBegin jni codec calloc baseFileSeeker_addr stale st env cls baseFileSeeker
              result).2.arg o = st.arg o)
    ∧ ((patchBegin jni codec calloc baseFileSeeker_addr stale st env cls baseFileSeeker result).1
          = RS_DONE →
        (patchBegin jni codec calloc baseFileSeeker_addr stale st env cls baseFileSeeker
            result).2.job result = codec.rs_patch_begin calloc
        ∧ (patchBegin jni codec calloc baseFileSeeker_addr stale st env cls baseFileSeeker
            result).2.arg result = calloc
        ∧ (patchBegin jni codec calloc baseFileSeeker_addr stale st env cls baseFileSeeker
            result).2.copy_arg calloc = ⟨baseFileSeeker_addr, env⟩) := by
  unfold patchBegin
  dsimp only
  split_ifs with h1 h2 h3
  · simp [h1, RS_INTERNAL_ERROR, RS_DONE, State.storeSlot, State.endFrame]
  · simp [h1, h2, RS_INTERNAL_ERROR, RS_DONE, State.storeSlot, State.storeCopyArg, State.endFrame]
  · simp [h1, h2, h3, RS_INTERNAL_ERROR, RS_DONE, State.storeSlot, State.storeCopyArg,
      State.endFrame]
  · simp [h1, h2, h3, RS_DONE, State.storeSlot, State.storeCopyArg, State.setJob, State.setArg,
      State.endFrame]

/-- After any `patchBegin`, whatever adapter was supplied, the address `&baseFileSeeker`
that a published binding holds designates the indeterminate word left in the dead frame. -/
theorem patchBegin_slot_after (jni : JNINativeInterface) (codec : Codec)
    (calloc : Ptr) (baseFileSeeker_addr : Ptr) (stale : jobject) (st : State) (env : JNIEnv)
    (cls : jclass) (baseFileSeeker : jobject) (result : jobject) :
    (patchBegin jni codec calloc baseFileSeeker_addr stale st env cls baseFileSeeker
        result).2.slot baseFileSeeker_addr = stale := by
  unfold patchBegin
  dsimp only
  split_ifs <;> simp [State.endFrame]

/-- C9, the code at the failing input: `patchBegin` with adapter 5 (parameter at address 64),
env 1 and holder 20 returns `RS_DONE` and publishes the job and the binding at 200, which
holds `(64, 1)`; the word at address 64 is then what the dead frame left (77), not the
adapter 5, and a fetch through the binding calls `seek` on that word. -/
theorem patchBegin_binding_dangles :
    (patchBegin (demoJNI 7 0 0 0) (demoCodec 0 0 0) 200 64 77 demoState 1 0 5 20).1 = RS_DONE
    ∧ (patchBegin (demoJNI 7 0 0 0) (demoCodec 0 0 0) 200 64 77 demoState 1 0 5 20).2.job 20 = 1200
    ∧ (patchBegin (demoJNI 7 0 0 0) (demoCodec 0 0 0) 200 64 77 demoState 1 0 5 20).2.arg 20 = 200
    ∧ (patchBegin (demoJNI 7 0 0 0) (demoCodec 0 0 0) 200 64 77 demoState 1 0 5 20).2.copy_arg 200
        = ⟨64, 1⟩
    ∧ (patchBegin (demoJNI 7 0 0 0) (demoCodec 0 0 0) 200 64 77 demoState 1 0 5 20).2.slot
          ((patchBegin (demoJNI 7 0 0 0) (demoCodec 0 0 0) 200 64 77 demoState 1 0 5
            20).2.copy_arg 200).patchBaseFileSeeker = 77
    ∧ (patchBegin (demoJNI 7 0 0 0) (demoCodec 0 0 0) 200 64 77 demoState 1 0 5 20).2.slot
          ((patchBegin (demoJNI 7 0 0 0) (demoCodec 0 0 0) 200 64 77 demoState 1 0 5
            20).2.copy_arg 200).patchBaseFileSeeker ≠ 5 := by
  decide

end LibrsyncWrapper
